import Mathlib

/-!
Verification of the ZZU electricity monitor script (`index.py`) against its
natural-language specification.

The Python source is shallowly embedded below.  Python floats are modelled as
exact rationals (`ℚ`) for the threshold comparisons, together with their
`str()` rendering as a list of characters where the text of a balance matters
(`format_balance_report`).  Fallible operations (HTTP sends, file-system
access) are modelled with `Except String`, and the tenacity retry decorator
(`stop_after_attempt(5)`, `reraise=True`) as an explicit attempt-counting
loop.  File-system state is reduced to the facts the claims need: whether the
storage root `./page/data` exists, and the contents handed to / returned by
each function.
-/

/-! ## Constants (index.py lines 33-42) -/

def THRESHOLD : ℚ := 10

def EXCELLENT_THRESHOLD : ℚ := 100

def RETRY_ATTEMPTS : ℕ := 5

/-! ## Balance classification (index.py lines 222-248) -/

/-- Model of the pair returned by `_get_energy_balance`:
`{"lt_Balance": .., "ac_Balance": ..}`. -/
structure Balances where
  lt_Balance : ℚ
  ac_Balance : ℚ

/-- Embedding of the inner `get_status` of `format_balance_report`
(index.py lines 225-231). -/
def get_status (balance : ℚ) : String :=
  if balance > EXCELLENT_THRESHOLD then "充足"
  else if balance > THRESHOLD then "还行"
  else "⚠️警告"

/-- Embedding of `NotificationManager.is_low_energy` (index.py lines 245-248):
`balances['lt_Balance'] <= THRESHOLD or balances['ac_Balance'] <= THRESHOLD`. -/
def is_low_energy (balances : Balances) : Bool :=
  decide (balances.lt_Balance ≤ THRESHOLD) || decide (balances.ac_Balance ≤ THRESHOLD)

/-- Embedding of Python `s.replace(".", "\\.")` on the character list of `s`
(index.py lines 237-238). -/
def escapeDot : List Char → List Char
  | [] => []
  | c :: rest => if c = '.' then '\\' :: '.' :: escapeDot rest else c :: escapeDot rest

/-- A Python float as it reaches `format_balance_report`: its exact numeric
value (floats embed exactly into `ℚ`) together with the character sequence
produced by Python `str()` on it. -/
structure PyFloat where
  val : ℚ
  render : List Char

/-- Embedding of `NotificationManager.format_balance_report`
(index.py lines 222-243).  The output is the character sequence of the
formatted two-line report; the f-string template is reproduced verbatim. -/
def format_balance_report (lt_balance ac_balance : PyFloat) (escape_dot : Bool) : List Char :=
  let lt_status := get_status lt_balance.val
  let ac_status := get_status ac_balance.val
  let lt_balance_str := if escape_dot then escapeDot lt_balance.render else lt_balance.render
  let ac_balance_str := if escape_dot then escapeDot ac_balance.render else ac_balance.render
  "💡 照明剩余电量：".data ++ (lt_balance_str ++ (" 度（".data ++ (lt_status.data ++ ("）\n".data ++
    ("❄️ 空调剩余电量：".data ++ (ac_balance_str ++ (" 度（".data ++ (ac_status.data ++ "）\n\n".data))))))))

/-- Checks that every occurrence of '.' in the character list is immediately
preceded by a backslash; the boolean argument records whether the previous
character was a backslash. -/
def dotsEscaped : Bool → List Char → Bool
  | _, [] => true
  | prevBackslash, c :: rest =>
    if c = '.' then prevBackslash && dotsEscaped false rest
    else dotsEscaped (c == '\\') rest

/-- Whether `pat` occurs at the head of `l`. -/
def isSubAt : List Char → List Char → Bool
  | [], _ => true
  | _ :: _, [] => false
  | p :: ps, c :: cs => (p == c) && isSubAt ps cs

/-- Whether `pat` occurs as a contiguous substring of `l`. -/
def containsSub (pat : List Char) : List Char → Bool
  | [] => isSubAt pat []
  | c :: cs => isSubAt pat (c :: cs) || containsSub pat cs

/-! ## Helper lemmas on classification -/

theorem get_status_eq_warning_iff (b : ℚ) : get_status b = "⚠️警告" ↔ b ≤ 10 := by
  unfold get_status EXCELLENT_THRESHOLD THRESHOLD
  split_ifs with hA hB
  · constructor
    · intro h; exact absurd h (by decide)
    · intro h; exact absurd hA (by push_neg; linarith)
  · constructor
    · intro h; exact absurd h (by decide)
    · intro h; exact absurd hB (by push_neg; linarith)
  · constructor
    · intro _; linarith [not_lt.mp hB]
    · intro _; rfl

theorem get_status_eq_sufficient_iff (b : ℚ) : get_status b = "充足" ↔ 100 < b := by
  unfold get_status EXCELLENT_THRESHOLD THRESHOLD
  split_ifs with hA hB
  · exact ⟨fun _ => hA, fun _ => rfl⟩
  · constructor
    · intro h; exact absurd h (by decide)
    · intro h; exact absurd hA (by push_neg; linarith)
  · constructor
    · intro h; exact absurd h (by decide)
    · intro h; exact absurd hA (by push_neg; linarith)

theorem get_status_eq_adequate_iff (b : ℚ) : get_status b = "还行" ↔ 10 < b ∧ b ≤ 100 := by
  unfold get_status EXCELLENT_THRESHOLD THRESHOLD
  split_ifs with hA hB
  · constructor
    · intro h; exact absurd h (by decide)
    · intro h; exact absurd hA (by push_neg; linarith [h.2])
  · exact ⟨fun _ => ⟨hB, not_lt.mp hA⟩, fun _ => rfl⟩
  · constructor
    · intro h; exact absurd h (by decide)
    · intro h; exact absurd hB (by push_neg; linarith [h.1])

/-- Claim C7: for every balance `b`, `get_status` classifies `b` as the warning
(Low) status iff `b ≤ 10`, as the sufficient status iff `b > 100`, and as the
adequate status iff `10 < b ≤ 100`. -/
theorem claim_C7 (b : ℚ) :
    (get_status b = "⚠️警告" ↔ b ≤ 10) ∧
    (get_status b = "充足" ↔ 100 < b) ∧
    (get_status b = "还行" ↔ 10 < b ∧ b ≤ 100) :=
  ⟨get_status_eq_warning_iff b, get_status_eq_sufficient_iff b, get_status_eq_adequate_iff b⟩

/-- Claim C8: `is_low_energy` is the disjunction of the two per-quantity Low
classifications, and in particular holds at `{lt: 11, ac: 5}` even though the
lighting balance alone is classified adequate. -/
theorem claim_C8 :
    (∀ b : Balances,
      is_low_energy b = true ↔
        (get_status b.lt_Balance = "⚠️警告" ∨ get_status b.ac_Balance = "⚠️警告")) ∧
    is_low_energy ⟨11, 5⟩ = true ∧ get_status 11 = "还行" := by
  refine ⟨fun b => ?_, ?_, ?_⟩
  · rw [get_status_eq_warning_iff, get_status_eq_warning_iff]
    simp [is_low_energy, THRESHOLD]
  · rfl
  · rw [get_status_eq_adequate_iff]
    constructor <;> norm_num

/-! ## Dot-escaping lemmas for the formatted report -/

theorem dotsEscaped_nil (s : Bool) : dotsEscaped s [] = true := rfl

theorem dotsEscaped_append_escape (l rest : List Char)
    (h : ∀ s, dotsEscaped s rest = true) :
    ∀ s, dotsEscaped s (escapeDot l ++ rest) = true := by
  induction l with
  | nil => simpa [escapeDot] using h
  | cons c t ih =>
    intro s
    by_cases hc : c = '.'
    · subst hc
      simp only [escapeDot, if_pos rfl, List.cons_append, dotsEscaped]
      simp only [show ('\\' = '.') = False by simp, if_false, show ('.' = '.') = True by simp,
        if_true, Bool.true_and]
      exact ih false
    · simp only [escapeDot, if_neg hc, List.cons_append, dotsEscaped, if_neg hc]
      exact ih _

theorem dotsEscaped_append_nodot (l : List Char) (hl : '.' ∉ l) (rest : List Char)
    (h : ∀ s, dotsEscaped s rest = true) :
    ∀ s, dotsEscaped s (l ++ rest) = true := by
  induction l with
  | nil => simpa using h
  | cons c t ih =>
    intro s
    have hc : c ≠ '.' := fun hch => hl (hch ▸ List.mem_cons_self c t)
    have ht : '.' ∉ t := fun hm => hl (List.mem_cons_of_mem c hm)
    simp only [List.cons_append, dotsEscaped, if_neg hc]
    exact ih ht _

/-- Every status string produced by `get_status` contains no dot. -/
theorem get_status_no_dot (b : ℚ) : '.' ∉ (get_status b).data := by
  unfold get_status
  split_ifs <;> decide

/-- Claim C9: with `escape_dot = True`, every '.' in the output of
`format_balance_report` is immediately preceded by a backslash (for all
balance values and all `str()` renderings of them), and on the concrete
reading `lt = 12.5` the output contains the substring `12\\.5`. -/
theorem claim_C9 :
    (∀ lt_balance ac_balance : PyFloat,
      dotsEscaped false (format_balance_report lt_balance ac_balance true) = true) ∧
    containsSub "12\\.5".data
      (format_balance_report ⟨12.5, "12.5".data⟩ ⟨3, "3.0".data⟩ true) = true := by
  constructor
  · intro lt_balance ac_balance
    show dotsEscaped false
      ("💡 照明剩余电量：".data ++ (escapeDot lt_balance.render ++ (" 度（".data ++
        ((get_status lt_balance.val).data ++ ("）\n".data ++ ("❄️ 空调剩余电量：".data ++
          (escapeDot ac_balance.render ++ (" 度（".data ++
            ((get_status ac_balance.val).data ++ "）\n\n".data))))))))) = true
    refine dotsEscaped_append_nodot _ (by decide) _ ?_ false
    refine dotsEscaped_append_escape _ _ ?_
    refine dotsEscaped_append_nodot _ (by decide) _ ?_
    refine dotsEscaped_append_nodot _ (get_status_no_dot _) _ ?_
    refine dotsEscaped_append_nodot _ (by decide) _ ?_
    refine dotsEscaped_append_nodot _ (by decide) _ ?_
    refine dotsEscaped_append_escape _ _ ?_
    refine dotsEscaped_append_nodot _ (by decide) _ ?_
    refine dotsEscaped_append_nodot _ (get_status_no_dot _) _ ?_
    intro s
    cases s <;> decide
  · have h1 : get_status (12.5 : ℚ) = "还行" := by
      rw [get_status_eq_adequate_iff]; norm_num
    have h2 : get_status (3 : ℚ) = "⚠️警告" := by
      rw [get_status_eq_warning_iff]; norm_num
    simp only [format_balance_report, h1, h2]
    decide

/-! ## Retry wrapper (index.py lines 57-81)

`create_retry_decorator` builds a tenacity wrapper with
`stop=stop_after_attempt(RETRY_ATTEMPTS)`, `retry=retry_if_exception_type(Exception)`
and `reraise=True`: attempts run until one succeeds or the attempt budget is
exhausted, and after exhaustion the last exception is re-raised unchanged.
`f i` is the outcome of attempt number `i` (starting at 0); the result pairs
the number of attempts actually made with the final outcome. -/

def retry_exec {α : Type} (f : ℕ → Except String α) : ℕ → ℕ → ℕ × Except String α
  | _, 0 => (0, .error "stop_after_attempt requires a positive attempt count")
  | i, 1 => (1, f i)
  | i, n + 2 =>
    match f i with
    | .ok a => (1, .ok a)
    | .error _ =>
      let r := retry_exec f (i + 1) (n + 1)
      (r.1 + 1, r.2)

/-- One decorated call: `RETRY_ATTEMPTS = 5` attempts at most. -/
def run_with_retry {α : Type} (f : ℕ → Except String α) : ℕ × Except String α :=
  retry_exec f 0 RETRY_ATTEMPTS

/-! ## Server酱 channel (index.py lines 250-277) -/

/-- What one configured key's HTTP exchange can produce, as seen by the loop
body of `send_serverchan_notification`:
`netError`     - `requests.post` raises (network/timeout); propagates out of
                 the function into the retry wrapper;
`nonJson`      - `response.json()` raises `ValueError`; logged, loop continues;
`jsonResp`     - a decoded JSON body with its `code` and `message` fields. -/
inductive ServerChanResp where
  | netError (e : String)
  | nonJson (body : String)
  | jsonResp (code : ℤ) (message : String)

/-- Per-key outcome recorded by the loop (success log, non-JSON error log, or
failure-message error log). -/
inductive KeyOutcome where
  | success
  | loggedNonJson
  | loggedFailure (message : String)
deriving DecidableEq

/-- Embedding of one un-retried invocation of
`send_serverchan_notification`'s key loop (index.py lines 259-277), given the
response each key's `requests.post` produces.  A raised network error aborts
the loop (and the whole call); every decoded response - success or not - and
every non-JSON body is only logged, and the loop continues. -/
def send_serverchan_attempt : List ServerChanResp → Except String (List KeyOutcome)
  | [] => .ok []
  | .netError e :: _ => .error e
  | .nonJson _ :: rest =>
    (send_serverchan_attempt rest).map (fun outs => KeyOutcome.loggedNonJson :: outs)
  | .jsonResp code msg :: rest =>
    (send_serverchan_attempt rest).map
      (fun outs => (if code = 0 then KeyOutcome.success else KeyOutcome.loggedFailure msg) :: outs)

/-- The `@request_retry`-decorated channel send: the attempt body runs under
the retry wrapper; `responses i` is what the keys' HTTP calls return on
attempt `i`. -/
def send_serverchan_notification (responses : ℕ → List ServerChanResp) :
    ℕ × Except String (List KeyOutcome) :=
  run_with_retry (fun i => send_serverchan_attempt (responses i))

/-! ## Orchestration (index.py lines 325-344 and 427-456)

`notify_admin` calls the three (already retry-wrapped) channel sends in
sequence with no try/except of its own, and `main` calls `notify_admin`,
`record_data` and `parse_and_update_data` in sequence where only the balance
acquisition (line 441) is inside a try/except.  The `Except` argument of each
channel is the outcome of that channel's send after its own retry policy.
The returned list records which channels were actually invoked, in order. -/

def notify_admin (balances : Balances)
    (serverchan_send email_send telegram_send : Except String Unit) :
    List String × Except String Unit :=
  if is_low_energy balances then
    match serverchan_send with
    | .error e => (["serverchan"], .error e)
    | .ok _ =>
      match email_send with
      | .error e => (["serverchan", "email"], .error e)
      | .ok _ =>
        match telegram_send with
        | .error e => (["serverchan", "email", "telegram"], .error e)
        | .ok _ => (["serverchan", "email", "telegram"], .ok ())
  else
    match telegram_send with
    | .error e => (["telegram"], .error e)
    | .ok _ => (["telegram"], .ok ())

/-- The tail of `main` after the balances were obtained (index.py lines
446-456): `notify_admin` is not wrapped in try/except, so an error it raises
skips the persistence steps and escapes `main`.  The middle component records
whether `record_data` was reached; the last is what `main` itself raises. -/
def main_after_reading (balances : Balances)
    (serverchan_send email_send telegram_send : Except String Unit) :
    List String × Bool × Except String Unit :=
  match notify_admin balances serverchan_send email_send telegram_send with
  | (attempted, .error e) => (attempted, false, .error e)
  | (attempted, .ok _) => (attempted, true, .ok ())

/-- Claim C1 counterexample: on a low reading whose Push-relay channel fails
on every attempt, the retry wrapper exhausts its 5 attempts and re-raises -
and then, contrary to the claim, the orchestrator does NOT catch it: the
attempted-channel list stops at `serverchan` (Email and Chat-bot are never
attempted), the reading is not persisted, and the error escapes `main`. -/
theorem claim_C1_counterexample :
    send_serverchan_notification (fun _ => [ServerChanResp.netError "connection timeout"])
      = (5, Except.error "connection timeout") ∧
    main_after_reading ⟨5, 5⟩
        ((send_serverchan_notification
            (fun _ => [ServerChanResp.netError "connection timeout"])).2.map (fun _ => ()))
        (Except.ok ()) (Except.ok ())
      = (["serverchan"], false, Except.error "connection timeout") ∧
    "email" ∉ (main_after_reading ⟨5, 5⟩
        ((send_serverchan_notification
            (fun _ => [ServerChanResp.netError "connection timeout"])).2.map (fun _ => ()))
        (Except.ok ()) (Except.ok ())).1 ∧
    "telegram" ∉ (main_after_reading ⟨5, 5⟩
        ((send_serverchan_notification
            (fun _ => [ServerChanResp.netError "connection timeout"])).2.map (fun _ => ()))
        (Except.ok ()) (Except.ok ())).1 := by
  refine ⟨rfl, rfl, ?_, ?_⟩ <;> decide

/-- Claim C1 (amended): a channel send that raises on every attempt exhausts
its retry budget of exactly 5 attempts and re-raises the last exception to
the caller; but `notify_admin` does not catch per channel, so on a low
reading a failed Push-relay send means Email and Chat-bot are not attempted,
`record_data` is not reached, and the exception escapes `main`'s top level. -/
theorem claim_C1_amended :
    (∀ err : ℕ → String,
      run_with_retry (fun i => (Except.error (err i) : Except String Unit))
        = (5, Except.error (err 4))) ∧
    (∀ (balances : Balances) (e : String) (email_send telegram_send : Except String Unit),
      is_low_energy balances = true →
        notify_admin balances (Except.error e) email_send telegram_send
          = (["serverchan"], Except.error e) ∧
        main_after_reading balances (Except.error e) email_send telegram_send
          = (["serverchan"], false, Except.error e)) := by
  constructor
  · intro err
    rfl
  · intro balances e email_send telegram_send hlow
    constructor
    · simp [notify_admin, hlow]
    · simp [main_after_reading, notify_admin, hlow]

/-- Witness for `claim_C1_amended` at the concrete low reading `⟨5, 5⟩`. -/
theorem claim_C1_witness :
    is_low_energy ⟨5, 5⟩ = true ∧
    notify_admin ⟨5, 5⟩ (Except.error "e") (Except.ok ()) (Except.ok ())
      = (["serverchan"], Except.error "e") ∧
    main_after_reading ⟨5, 5⟩ (Except.error "e") (Except.ok ()) (Except.ok ())
      = (["serverchan"], false, Except.error "e") :=
  ⟨rfl,
    (claim_C1_amended.2 ⟨5, 5⟩ "e" (Except.ok ()) (Except.ok ()) rfl).1,
    (claim_C1_amended.2 ⟨5, 5⟩ "e" (Except.ok ()) (Except.ok ()) rfl).2⟩

/-- Claim C3 counterexample: a decoded JSON response with non-zero `code` (a
non-success delivery response that is not a non-JSON body) is NOT retried:
the call makes exactly one attempt, logs the failure for that key, and
returns without raising - contradicting the claim that every non-success
response other than a non-JSON body is retryable and re-raised after
exhaustion. -/
theorem claim_C3_counterexample :
    send_serverchan_notification (fun _ => [ServerChanResp.jsonResp 1 "bad key"])
      = (1, Except.ok [KeyOutcome.loggedFailure "bad key"]) := rfl

/-- Claim C3 (amended): for the Push-relay channel, both a non-JSON response
body and a decoded JSON response with non-zero code are non-retryable per-key
failures (logged, the key loop continues); only an exception raised by the
HTTP request itself (network/timeout) propagates to the RetryPolicy, which
re-raises it after exhausting its 5 attempts. -/
theorem claim_C3_amended :
    (∀ (body : String) (rest : List ServerChanResp),
      send_serverchan_attempt (ServerChanResp.nonJson body :: rest)
        = (send_serverchan_attempt rest).map (fun outs => KeyOutcome.loggedNonJson :: outs)) ∧
    (∀ (code : ℤ) (msg : String) (rest : List ServerChanResp), code ≠ 0 →
      send_serverchan_attempt (ServerChanResp.jsonResp code msg :: rest)
        = (send_serverchan_attempt rest).map (fun outs => KeyOutcome.loggedFailure msg :: outs)) ∧
    (∀ e : String,
      send_serverchan_notification (fun _ => [ServerChanResp.netError e])
        = (5, Except.error e)) := by
  refine ⟨fun _ _ => rfl, fun code msg rest hcode => ?_, fun e => rfl⟩
  simp [send_serverchan_attempt, if_neg hcode]

/-- Witness for `claim_C3_amended` at code 1, message `bad key`, empty rest. -/
theorem claim_C3_witness :
    ((1 : ℤ) ≠ 0) ∧
    send_serverchan_attempt [ServerChanResp.jsonResp 1 "bad key"]
      = Except.ok [KeyOutcome.loggedFailure "bad key"] :=
  ⟨by decide, by
    have h := claim_C3_amended.2.1 1 "bad key" [] (by decide)
    rw [h]
    rfl⟩

/-! ## Storage layer: DataManager (index.py lines 347-424)

`load_data_from_json` returns `None` on a missing or undecodable file, and
callers apply `... or []`; `pyOrEmpty` models that coalescing (Python treats
both `None` and `[]` as falsy, and both coalesce to `[]`). -/

def pyOrEmpty {α : Type} (o : Option (List α)) : List α := o.getD []

/-- Embedding of `dump_data_into_json` (index.py lines 367-379): the whole
body sits in `try: ... except Exception as e: logger.error(...)`, so whatever
the directory creation or file write raises is swallowed and the function
returns normally.  The argument is the outcome the underlying write would
have had. -/
def dump_data_into_json (write_outcome : Except String Unit) : Except String Unit :=
  match write_outcome with
  | .ok u => .ok u
  | .error _ => .ok ()

/-- Embedding of the value computed and returned by `record_data`
(index.py lines 381-389): load the period file (empty when absent), append
the new reading unconditionally, return the updated sequence. -/
def record_data {α : Type} (existing : Option (List α)) (data : α) : List α :=
  pyOrEmpty existing ++ [data]

/-- Full control flow of `record_data` including its call to
`dump_data_into_json`: the result is an error only if the dump raises - which
it never does. -/
def record_data_run {α : Type} (existing : Option (List α)) (data : α)
    (write_outcome : Except String Unit) : Except String (List α) :=
  let existing_data := pyOrEmpty existing ++ [data]
  match dump_data_into_json write_outcome with
  | .ok _ => .ok existing_data
  | .error e => .error e

/-- Sort key of `update_time_list` (index.py line 406):
`datetime.strptime(x, '%Y-%m')` on a `YYYY-MM` label, ordered by calendar
month; embedded as the total month count `year * 12 + month`. -/
def strptime_Ym (s : String) : ℕ :=
  match s.data with
  | [y1, y2, y3, y4, '-', m1, m2] =>
    ((((y1.toNat - 48) * 10 + (y2.toNat - 48)) * 10 + (y3.toNat - 48)) * 10 + (y4.toNat - 48)) * 12
      + ((m1.toNat - 48) * 10 + (m2.toNat - 48))
  | _ => 0

/-- Order in which `sorted(..., key=..., reverse=True)` leaves the labels:
`a` may precede `b` iff `a`'s parsed calendar date is no older than `b`'s. -/
def labelBefore (a b : String) : Prop := strptime_Ym b ≤ strptime_Ym a

instance : DecidableRel labelBefore := fun _ _ => Nat.decLe _ _

instance : IsTotal String labelBefore :=
  ⟨fun a b => Nat.le_total (strptime_Ym b) (strptime_Ym a)⟩

instance : IsTrans String labelBefore :=
  ⟨fun _ _ _ h1 h2 => Nat.le_trans h2 h1⟩

/-- Embedding of `update_time_list` (index.py lines 391-410): raises
`FileNotFoundError` when the storage root `./page/data` does not exist;
otherwise sorts the period labels (the globbed `????-??.json` basenames)
descending by parsed calendar date and returns them.  Python's `sorted` is a
stable sort, modelled by `List.insertionSort` with the same key.  The side
write of `time.json` carries no information beyond the returned list and is
not modelled. -/
def update_time_list (root_exists : Bool) (json_files : List String) :
    Except String (List String) :=
  if root_exists then .ok (json_files.insertionSort labelBefore)
  else .error "FileNotFoundError: 文件夹路径不存在：./page/data"

/-- Embedding of `parse_and_update_data` (index.py lines 412-424), given the
already-computed period-label list and the loaded previous-period contents:
if the current period holds fewer than 30 entries and another period exists,
backfill from the tail of the previous period, then keep the last 30 entries
(`lst[-30:]` is `drop (length - 30)`).  The result is what is written to
`last_30_records.json`. -/
def parse_and_update_data {α : Type} (existing_data : Option (List α))
    (time_file_list : List String) (prev_month_load : Option (List α)) : List α :=
  let existing_data_length := (pyOrEmpty existing_data).length
  let combined :=
    if existing_data_length < 30 ∧ 1 < time_file_list.length then
      let prev_month_data := pyOrEmpty prev_month_load
      let records_to_retrieve := min (30 - existing_data_length) prev_month_data.length
      prev_month_data.drop (prev_month_data.length - records_to_retrieve)
        ++ pyOrEmpty existing_data
    else pyOrEmpty existing_data
  combined.drop (combined.length - 30)

/-- Result of `makedirs(dirpath, exist_ok=True)` inside `dump_data_into_json`
(index.py lines 371-373): afterwards the directory exists whether or not it
did before. -/
def makedirs_exist_ok (root_exists : Bool) : Bool := root_exists || true

/-- The data phase at the end of `main` (index.py lines 449-456):
`record_data` runs first (line 455) - its `dump_data_into_json` creates the
storage root when absent - and only then does `parse_and_update_data`
(line 456) call `update_time_list`.  Records whether `record_data` was
reached, the sequence it returned, and the outcome of the index refresh. -/
structure DataPhase (α : Type) where
  record_reached : Bool
  period_data : List α
  root_exists_after_record : Bool
  refresh_result : Except String (List String)

def main_data_phase {α : Type} (root_exists : Bool) (existing : Option (List α))
    (data : α) (json_files : List String) : DataPhase α :=
  let period_data := record_data existing data
  let root_after := makedirs_exist_ok root_exists
  { record_reached := true
    period_data := period_data
    root_exists_after_record := root_after
    refresh_result := update_time_list root_after json_files }

/-- Claim C2 counterexample: running the data phase with the storage root
absent, `record_data` IS reached (it runs before the index refresh at
index.py lines 455-456) and its dump creates the root, after which the index
refresh succeeds rather than failing with `FileNotFoundError`. -/
theorem claim_C2_counterexample :
    (main_data_phase false (some ([] : List ℕ)) 7 ["2025-10"]).record_reached = true ∧
    (main_data_phase false (some ([] : List ℕ)) 7 ["2025-10"]).period_data = [7] ∧
    (main_data_phase false (some ([] : List ℕ)) 7 ["2025-10"]).refresh_result
      = Except.ok ["2025-10"] :=
  ⟨rfl, rfl, rfl⟩

/-- Claim C2 (amended): `update_time_list` does raise `FileNotFoundError`
when invoked while the storage root is missing; but in `main`'s run order
`record_data` executes first and silently succeeds (its
`dump_data_into_json` creates the root via `makedirs`), so the reading is
recorded and the subsequent `update_time_list` call does not fail. -/
theorem claim_C2_amended {α : Type} :
    ∀ (existing : Option (List α)) (data : α) (json_files : List String),
      update_time_list false json_files
        = Except.error "FileNotFoundError: 文件夹路径不存在：./page/data" ∧
      (main_data_phase false existing data json_files).record_reached = true ∧
      (main_data_phase false existing data json_files).period_data
        = pyOrEmpty existing ++ [data] ∧
      (main_data_phase false existing data json_files).refresh_result
        = Except.ok (json_files.insertionSort labelBefore) :=
  fun _ _ _ => ⟨rfl, rfl, rfl, rfl⟩

/-- Claim C4: with a current period of 5 entries, a previous period of 40
entries and more than one known period, the recent window is exactly the
last 25 entries of the previous period followed by the 5 current entries,
30 entries in all. -/
theorem claim_C4 {α : Type} (cur prev : List α) (time_file_list : List String)
    (hcur : cur.length = 5) (hprev : prev.length = 40)
    (htfl : 1 < time_file_list.length) :
    parse_and_update_data (some cur) time_file_list (some prev)
      = prev.drop 15 ++ cur ∧
    (parse_and_update_data (some cur) time_file_list (some prev)).length = 30 := by
  have hdrop : (prev.drop 15).length = 25 := by
    simp [List.length_drop, hprev]
  have hlen : (prev.drop 15 ++ cur).length = 30 := by
    simp [List.length_append, hdrop, hcur]
  have h1 : parse_and_update_data (some cur) time_file_list (some prev)
      = prev.drop 15 ++ cur := by
    unfold parse_and_update_data pyOrEmpty
    simp only [Option.getD_some]
    rw [if_pos ⟨by omega, htfl⟩]
    rw [hcur, hprev]
    norm_num
    simp [hcur, hprev]
  exact ⟨h1, by rw [h1, hlen]⟩

/-- Witness for `claim_C4` at concrete 5- and 40-entry periods. -/
theorem claim_C4_witness :
    (List.range 5).length = 5 ∧ (List.range 40).length = 40 ∧
    1 < (["2025-02", "2025-01"] : List String).length ∧
    parse_and_update_data (some (List.range 5)) ["2025-02", "2025-01"] (some (List.range 40))
      = (List.range 40).drop 15 ++ List.range 5 ∧
    (parse_and_update_data (some (List.range 5)) ["2025-02", "2025-01"]
      (some (List.range 40))).length = 30 :=
  ⟨by decide, by decide, by decide,
    (claim_C4 (List.range 5) (List.range 40) ["2025-02", "2025-01"]
      (by decide) (by decide) (by decide)).1,
    (claim_C4 (List.range 5) (List.range 40) ["2025-02", "2025-01"]
      (by decide) (by decide) (by decide)).2⟩

/-- Claim C5: `record_data` appends unconditionally - calling it twice with
the very same reading grows the period sequence by one each time, with no
duplicate-of-last skipping. -/
theorem claim_C5 {α : Type} (l : List α) (data : α) :
    record_data (some l) data = l ++ [data] ∧
    (record_data (some l) data).length = l.length + 1 ∧
    record_data (some (record_data (some l) data)) data = l ++ [data, data] ∧
    (record_data (some (record_data (some l) data)) data).length = l.length + 2 := by
  refine ⟨rfl, by simp [record_data, pyOrEmpty], ?_, by simp [record_data, pyOrEmpty]⟩
  simp [record_data, pyOrEmpty]

/-- Claim C6: `update_time_list` on the gapped label set
`{2024-11, 2025-01, 2025-02}` returns `[2025-02, 2025-01, 2024-11]`, and in
general returns a permutation of the labels that is pairwise sorted
descending by parsed calendar date. -/
theorem claim_C6 :
    update_time_list true ["2024-11", "2025-01", "2025-02"]
      = Except.ok ["2025-02", "2025-01", "2024-11"] ∧
    (∀ json_files : List String,
      update_time_list true json_files
        = Except.ok (json_files.insertionSort labelBefore)) ∧
    (∀ json_files : List String,
      List.Perm (json_files.insertionSort labelBefore) json_files ∧
      List.Sorted labelBefore (json_files.insertionSort labelBefore)) :=
  ⟨by
      have h : (["2024-11", "2025-01", "2025-02"] : List String).insertionSort labelBefore
          = ["2025-02", "2025-01", "2024-11"] := by decide
      show Except.ok ((["2024-11", "2025-01", "2025-02"] : List String).insertionSort labelBefore)
        = Except.ok ["2025-02", "2025-01", "2024-11"]
      exact congrArg Except.ok h,
    fun _ => rfl,
    fun l => ⟨List.perm_insertionSort labelBefore l, List.sorted_insertionSort labelBefore l⟩⟩

/-- Claim C10: `dump_data_into_json` swallows every write failure, so
`record_data` never raises and always returns the appended in-memory
sequence; its return value cannot distinguish a persisted write from a
failed one. -/
theorem claim_C10 {α : Type} :
    ∀ (existing : Option (List α)) (data : α) (write_outcome : Except String Unit),
      dump_data_into_json write_outcome = Except.ok () ∧
      record_data_run existing data write_outcome
        = Except.ok (pyOrEmpty existing ++ [data]) ∧
      record_data_run existing data write_outcome
        = record_data_run existing data (Except.ok ()) := by
  intro existing data write_outcome
  cases write_outcome <;> simp [dump_data_into_json, record_data_run]
